import Mathlib

/-!
Verification of the schema-provisioning script `create_schemas.py`.

The script holds two literal DDL strings (`FOOTBALL_SCHEMA_SQL`,
`HOUSING_SCHEMA_SQL`), a helper `execute_sql` that shells out to an external
database client and maps the process outcome to a boolean, and a `main`
routine that provisions four target databases in a fixed order, aborting the
whole run with exit status 1 on the first failure.

The external process is modelled as a function `run : String → String →
ExecResult` giving, for each (database, sql) invocation, the process's
return code and captured output streams.  `main` is embedded as a pure
function from such an executor to the ordered list of printed lines, the
ordered list of executor invocations actually made, and the process exit
status.
-/

namespace CreateSchemas

/-- Outcome of one external process invocation (`subprocess.run` with
`capture_output=True`): return code plus captured stdout/stderr text. -/
structure ExecResult where
  returncode : Int
  stdout : String
  stderr : String
deriving Repr, DecidableEq

/-- The lines of the Python literal `FOOTBALL_SCHEMA_SQL` (between the
opening and closing `"""`, which each contribute a newline). -/
def FOOTBALL_SCHEMA_LINES : List String :=
  [ "DROP TABLE IF EXISTS raw_pl_matches CASCADE;"
  , ""
  , "CREATE TABLE raw_pl_matches ("
  , "    id SERIAL PRIMARY KEY,"
  , "    league_division VARCHAR(10) NOT NULL,"
  , "    match_date DATE NOT NULL,"
  , "    kickoff_time TIME,"
  , "    home_team VARCHAR(100) NOT NULL,"
  , "    away_team VARCHAR(100) NOT NULL,"
  , "    ft_home_goals INTEGER,"
  , "    ft_away_goals INTEGER,"
  , "    ft_result VARCHAR(1),"
  , "    ht_home_goals INTEGER,"
  , "    ht_away_goals INTEGER,"
  , "    ht_result VARCHAR(1),"
  , "    referee VARCHAR(100),"
  , "    home_shots INTEGER,"
  , "    away_shots INTEGER,"
  , "    home_shots_on_target INTEGER,"
  , "    away_shots_on_target INTEGER,"
  , "    home_corners INTEGER,"
  , "    away_corners INTEGER,"
  , "    home_fouls INTEGER,"
  , "    away_fouls INTEGER,"
  , "    home_yellow_cards INTEGER,"
  , "    away_yellow_cards INTEGER,"
  , "    home_red_cards INTEGER,"
  , "    away_red_cards INTEGER,"
  , "    bet365_home_odds DECIMAL(5, 2),"
  , "    bet365_draw_odds DECIMAL(5, 2),"
  , "    bet365_away_odds DECIMAL(5, 2),"
  , "    bet365_over_2_5 DECIMAL(5, 2),"
  , "    bet365_under_2_5 DECIMAL(5, 2),"
  , "    asian_handicap DECIMAL(4, 1),"
  , "    bet365_ah_home_odds DECIMAL(5, 2),"
  , "    bet365_ah_away_odds DECIMAL(5, 2),"
  , "    season VARCHAR(10) DEFAULT \x272526\x27,"
  , "    data_source VARCHAR(50) DEFAULT \x27football-data.co.uk\x27,"
  , "    created_at TIMESTAMP DEFAULT CURRENT_TIMESTAMP,"
  , "    updated_at TIMESTAMP DEFAULT CURRENT_TIMESTAMP"
  , ");"
  , ""
  , "CREATE INDEX idx_raw_pl_matches_date ON raw_pl_matches(match_date);"
  , "CREATE INDEX idx_raw_pl_matches_home ON raw_pl_matches(home_team);"
  , "CREATE INDEX idx_raw_pl_matches_away ON raw_pl_matches(away_team);"
  , "CREATE INDEX idx_raw_pl_matches_league ON raw_pl_matches(league_division);"
  ]

/-- The literal DDL string `FOOTBALL_SCHEMA_SQL` of the script. -/
def FOOTBALL_SCHEMA_SQL : String :=
  "\n" ++ String.intercalate "\n" FOOTBALL_SCHEMA_LINES ++ "\n"

/-- The lines of the Python literal `HOUSING_SCHEMA_SQL`. -/
def HOUSING_SCHEMA_LINES : List String :=
  [ "CREATE SCHEMA IF NOT EXISTS raw;"
  , "CREATE SCHEMA IF NOT EXISTS staging;"
  , "CREATE SCHEMA IF NOT EXISTS marts;"
  , ""
  , "GRANT ALL PRIVILEGES ON SCHEMA raw TO dataeng;"
  , "GRANT ALL PRIVILEGES ON SCHEMA staging TO dataeng;"
  , "GRANT ALL PRIVILEGES ON SCHEMA marts TO dataeng;"
  , ""
  , "CREATE TABLE IF NOT EXISTS raw.listings ("
  , "    listing_id VARCHAR(50) NOT NULL,"
  , "    url TEXT NOT NULL,"
  , "    title TEXT,"
  , "    property_type VARCHAR(50),"
  , "    typology VARCHAR(10),"
  , "    price_eur NUMERIC(12, 2),"
  , "    price_per_m2 NUMERIC(10, 2),"
  , "    area_m2 NUMERIC(10, 2),"
  , "    full_address TEXT,"
  , "    city VARCHAR(200),"
  , "    province VARCHAR(200),"
  , "    district VARCHAR(100),"
  , "    agency_name VARCHAR(200),"
  , "    scraped_at TIMESTAMP NOT NULL,"
  , "    inserted_at TIMESTAMP DEFAULT CURRENT_TIMESTAMP,"
  , "    CONSTRAINT pk_raw_listings PRIMARY KEY (listing_id, scraped_at)"
  , ");"
  , ""
  , "CREATE INDEX IF NOT EXISTS idx_raw_listings_scraped_at ON raw.listings(scraped_at DESC);"
  , "CREATE INDEX IF NOT EXISTS idx_raw_listings_city ON raw.listings(city);"
  , "CREATE INDEX IF NOT EXISTS idx_raw_listings_province ON raw.listings(province);"
  , "CREATE INDEX IF NOT EXISTS idx_raw_listings_price ON raw.listings(price_eur) WHERE price_eur IS NOT NULL;"
  , "CREATE INDEX IF NOT EXISTS idx_raw_listings_url ON raw.listings(url);"
  , ""
  , "CREATE OR REPLACE VIEW raw.listings_latest AS"
  , "SELECT DISTINCT ON (listing_id)"
  , "    listing_id, url, title, property_type, typology,"
  , "    price_eur, price_per_m2, area_m2,"
  , "    full_address, city, province, district, agency_name,"
  , "    scraped_at, inserted_at"
  , "FROM raw.listings"
  , "ORDER BY listing_id, scraped_at DESC;"
  , ""
  , "CREATE TABLE IF NOT EXISTS staging.price_history ("
  , "    id SERIAL PRIMARY KEY,"
  , "    listing_id VARCHAR(50) NOT NULL,"
  , "    url TEXT NOT NULL,"
  , "    price_eur NUMERIC(12, 2),"
  , "    price_per_m2 NUMERIC(10, 2),"
  , "    scraped_at TIMESTAMP NOT NULL,"
  , "    created_at TIMESTAMP DEFAULT CURRENT_TIMESTAMP,"
  , "    CONSTRAINT uq_price_history UNIQUE (listing_id, scraped_at)"
  , ");"
  , ""
  , "CREATE INDEX IF NOT EXISTS idx_price_history_listing ON staging.price_history(listing_id);"
  , ""
  , "COMMENT ON SCHEMA raw IS \x27Raw data as ingested from Imovirtual\x27;"
  , "COMMENT ON SCHEMA staging IS \x27Intermediate transformations via dbt\x27;"
  , "COMMENT ON SCHEMA marts IS \x27Final analytics-ready tables via dbt\x27;"
  , "COMMENT ON TABLE raw.listings IS \x27All listing snapshots - one row per listing per scrape date\x27;"
  , "COMMENT ON VIEW raw.listings_latest IS \x27Latest snapshot of each listing\x27;"
  ]

/-- The literal DDL string `HOUSING_SCHEMA_SQL` of the script. -/
def HOUSING_SCHEMA_SQL : String :=
  "\n" ++ String.intercalate "\n" HOUSING_SCHEMA_LINES ++ "\n"

/-- `execute_sql(database, sql)`: invoke the external client (modelled by
`run`) and return the success flag together with the lines this function
prints (the error diagnostic when the process exits nonzero). -/
def execute_sql (run : String → String → ExecResult)
    (database : String) (sql : String) : Bool × List String :=
  let result := run database sql
  if result.returncode ≠ 0 then
    (false, ["❌ Error in " ++ database ++ ": " ++ result.stderr])
  else
    (true, [])

/-- Result of a `main` run: printed lines in order, the executor
invocations `(database, sql)` actually made in order, and the process exit
status (`sys.exit(1)` on first failure, 0 on falling off the end). -/
structure MainOut where
  lines : List String
  calls : List (String × String)
  exitCode : Nat
deriving Repr, DecidableEq

/-- One dataset's `for env in ["dev", "prod"]` loop in `main`: for each
environment build `db = pfx ++ "_" ++ env`, print the progress line, call
`execute_sql`, and either print the success line and continue, or print the
failure line and abort (third component `true` = `sys.exit(1)` reached). -/
def datasetLoop (run : String → String → ExecResult)
    (pfx : String) (sql : String) :
    List String → List String × List (String × String) × Bool
  | [] => ([], [], false)
  | env :: rest =>
    let db := pfx ++ "_" ++ env
    let creating := "  Creating schema in " ++ db ++ "..."
    let r := execute_sql run db sql
    if r.1 then
      let (ls, cs, ab) := datasetLoop run pfx sql rest
      (creating :: r.2 ++ ("  ✅ " ++ db ++ " schema created") :: ls,
       (db, sql) :: cs, ab)
    else
      (creating :: r.2 ++ [("  ❌ " ++ db ++ " schema failed")],
       [(db, sql)], true)

/-- `main()`: the football loop over `["dev", "prod"]` with prefix
`football_data`, then the housing loop over `["dev", "prod"]` with prefix
`portugal_houses`; the first aborting loop ends the process with exit
status 1, otherwise the final success line is printed and the process exits
with status 0. -/
def main (run : String → String → ExecResult) : MainOut :=
  let (fl, fc, fab) :=
    datasetLoop run "football_data" FOOTBALL_SCHEMA_SQL ["dev", "prod"]
  if fab then
    ⟨["🔧 Creating database schemas...", "\n📊 Football Data:"] ++ fl, fc, 1⟩
  else
    let (hl, hc, hab) :=
      datasetLoop run "portugal_houses" HOUSING_SCHEMA_SQL ["dev", "prod"]
    if hab then
      ⟨["🔧 Creating database schemas...", "\n📊 Football Data:"] ++ fl
        ++ ["\n🏠 Housing Market:"] ++ hl, fc ++ hc, 1⟩
    else
      ⟨["🔧 Creating database schemas...", "\n📊 Football Data:"] ++ fl
        ++ ["\n🏠 Housing Market:"] ++ hl
        ++ ["\n✅ All schemas created successfully!"], fc ++ hc, 0⟩

/-- The four (database, sql) targets of a full run, in declared order. -/
def allTargets : List (String × String) :=
  [ ("football_data_dev", FOOTBALL_SCHEMA_SQL)
  , ("football_data_prod", FOOTBALL_SCHEMA_SQL)
  , ("portugal_houses_dev", HOUSING_SCHEMA_SQL)
  , ("portugal_houses_prod", HOUSING_SCHEMA_SQL)
  ]

/-- An executor whose every invocation exits with status 0. -/
def allOk : String → String → ExecResult := fun _ _ => ⟨0, "", ""⟩

/-- An executor that fails (exit status 1, a diagnostic on stderr) exactly
on the `football_data_prod` target and succeeds everywhere else. -/
def failAtFootballProd : String → String → ExecResult := fun db _ =>
  if db = "football_data_prod" then ⟨1, "", "connection refused"⟩ else ⟨0, "", ""⟩

/-- Does string `p` occur as a prefix of string `s`?  (Character-list
prefix test; used to classify the DDL statements by leading keyword.) -/
def startsWithStr (p s : String) : Bool :=
  p.data.isPrefixOf s.data

/-- Classify a target database identifier by the dataset it belongs to
(football targets vs housing targets); used only to state properties
relating the two environments of one dataset. -/
def datasetOf (db : String) : Option String :=
  if db = "football_data_dev" ∨ db = "football_data_prod" then some "football"
  else if db = "portugal_houses_dev" ∨ db = "portugal_houses_prod" then some "housing"
  else none

/-- Modelled from the spec: the naming convention the specification claims,
target identifier = `{dataset}_{env}` from the dataset name (the spec names
the datasets `football` and `housing`), with the football dataset as the
single legacy exception, using prefix `football_data`. -/
def claimedTarget (dataset env : String) : String :=
  (if dataset = "football" then "football_data" else dataset) ++ "_" ++ env

example : (main allOk).exitCode = 0 := rfl

example : (main allOk).calls = allTargets := rfl

example : (main failAtFootballProd).exitCode = 1 := rfl

/-- Every executor invocation `main` makes is one of the four declared
targets. -/
lemma mem_calls_mem_allTargets (run : String → String → ExecResult) :
    ∀ p ∈ (main run).calls, p ∈ allTargets := by
  by_cases h1 : (run "football_data_dev" FOOTBALL_SCHEMA_SQL).returncode = 0 <;>
  by_cases h2 : (run "football_data_prod" FOOTBALL_SCHEMA_SQL).returncode = 0 <;>
  by_cases h3 : (run "portugal_houses_dev" HOUSING_SCHEMA_SQL).returncode = 0 <;>
  by_cases h4 : (run "portugal_houses_prod" HOUSING_SCHEMA_SQL).returncode = 0 <;>
  simp [main, datasetLoop, execute_sql, allTargets, h1, h2, h3, h4]

/-- C1: if the executor fails on the k-th target in declared order while
every earlier target succeeds, then the run invokes the executor for
exactly the first k+1 targets — every earlier target has completed its
invocation, the failing target was invoked, and no later target is ever
attempted, even in the other dataset — and the process terminates with the
nonzero exit status 1. -/
theorem main_aborts_on_first_failure (run : String → String → ExecResult)
    (k : Nat) (hk : k < allTargets.length)
    (hfail : (run (allTargets.getD k ("", "")).1
        (allTargets.getD k ("", "")).2).returncode ≠ 0)
    (hok : ∀ i, i < k → (run (allTargets.getD i ("", "")).1
        (allTargets.getD i ("", "")).2).returncode = 0) :
    (main run).calls = allTargets.take (k + 1) ∧ (main run).exitCode = 1 := by
  have hk4 : k < 4 := by simpa [allTargets] using hk
  interval_cases k
  · simp [allTargets] at hfail
    simp [main, datasetLoop, execute_sql, allTargets, hfail]
  · have h0 := hok 0 (by omega)
    simp [allTargets] at hfail h0
    simp [main, datasetLoop, execute_sql, allTargets, hfail, h0]
  · have h0 := hok 0 (by omega)
    have h1 := hok 1 (by omega)
    simp [allTargets] at hfail h0 h1
    simp [main, datasetLoop, execute_sql, allTargets, hfail, h0, h1]
  · have h0 := hok 0 (by omega)
    have h1 := hok 1 (by omega)
    have h2 := hok 2 (by omega)
    simp [allTargets] at hfail h0 h1 h2
    simp [main, datasetLoop, execute_sql, allTargets, hfail, h0, h1, h2]

/-- C1 witness: with an executor failing exactly on `football_data_prod`
(index 1), the run invokes only the first two targets and exits with 1. -/
theorem main_aborts_on_first_failure_witness :
    (main failAtFootballProd).calls = allTargets.take 2 ∧
      (main failAtFootballProd).exitCode = 1 :=
  main_aborts_on_first_failure failAtFootballProd 1 (by simp [allTargets])
    (by simp [failAtFootballProd, allTargets])
    (by intro i hi
        interval_cases i
        simp [failAtFootballProd, allTargets])

/-- C2: the run exits with status 0 exactly when every one of the four
targets' executor invocations succeeds; the only other exit status is 1,
and an exit with status 1 happens after a failed invocation for some
target and after printing the failure line naming that target. -/
theorem main_exit_status (run : String → String → ExecResult) :
    ((main run).exitCode = 0 ↔ ∀ t ∈ allTargets, (run t.1 t.2).returncode = 0) ∧
    ((main run).exitCode = 0 ∨ (main run).exitCode = 1) ∧
    ((main run).exitCode = 1 →
      ∃ t ∈ allTargets, (run t.1 t.2).returncode ≠ 0 ∧
        ("  ❌ " ++ t.1 ++ " schema failed") ∈ (main run).lines) := by
  by_cases h1 : (run "football_data_dev" FOOTBALL_SCHEMA_SQL).returncode = 0 <;>
  by_cases h2 : (run "football_data_prod" FOOTBALL_SCHEMA_SQL).returncode = 0 <;>
  by_cases h3 : (run "portugal_houses_dev" HOUSING_SCHEMA_SQL).returncode = 0 <;>
  by_cases h4 : (run "portugal_houses_prod" HOUSING_SCHEMA_SQL).returncode = 0 <;>
  simp [main, datasetLoop, execute_sql, allTargets, h1, h2, h3, h4]

/-- C2 witness: under the all-success executor the exit status is 0. -/
theorem main_exit_status_witness :
    (main allOk).exitCode = 0 :=
  (main_exit_status allOk).1.mpr (by simp [allOk, allTargets])

/-- C3 counterexample: the actual targets are `football_data_{dev,prod}`
and `portugal_houses_{dev,prod}`; the naming convention asserted by the
claim (prefix = dataset name, football the sole exception) would give the
housing dataset the target `housing_dev`, which the run never uses — the
housing prefix `portugal_houses` is a second exception, so football is not
the only one. -/
theorem naming_convention_counterexample :
    (main allOk).calls.map Prod.fst
      = ["football_data_dev", "football_data_prod",
         "portugal_houses_dev", "portugal_houses_prod"] ∧
    claimedTarget "housing" "dev" = "housing_dev" ∧
    claimedTarget "housing" "dev" ∉ (main allOk).calls.map Prod.fst := by
  have h : (main allOk).calls.map Prod.fst
      = ["football_data_dev", "football_data_prod",
         "portugal_houses_dev", "portugal_houses_prod"] := rfl
  refine ⟨h, by decide, ?_⟩
  rw [h]
  decide

/-- C3 amended: every target identifier is `{prefix}_{env}` for the fixed
per-dataset prefix and environment tags dev and prod, where both prefixes
are legacy names differing from the datasets' own names: `football_data`
for football and `portugal_houses` for housing. -/
theorem targets_use_legacy_prefixes (run : String → String → ExecResult)
    (hok : ∀ db sql, (run db sql).returncode = 0) :
    (main run).calls.map Prod.fst
      = ["dev", "prod"].map (fun env => "football_data" ++ "_" ++ env)
        ++ ["dev", "prod"].map (fun env => "portugal_houses" ++ "_" ++ env) := by
  simp [main, datasetLoop, execute_sql, hok]

/-- C3 witness: the amended naming statement at the all-success executor. -/
theorem targets_use_legacy_prefixes_witness :
    (main allOk).calls.map Prod.fst
      = ["dev", "prod"].map (fun env => "football_data" ++ "_" ++ env)
        ++ ["dev", "prod"].map (fun env => "portugal_houses" ++ "_" ++ env) :=
  targets_use_legacy_prefixes allOk (fun _ _ => rfl)

/-- C4 counterexample: in a failure-free run the executor is invoked for
exactly four target databases, not eight. -/
theorem target_count_counterexample :
    (main allOk).calls.length = 4 ∧ ¬ (main allOk).calls.length = 8 := by
  have h : (main allOk).calls.length = 4 := rfl
  exact ⟨h, by omega⟩

/-- C4 amended: when no failure occurs the orchestration loop invokes the
external executor once per each of exactly four targets — the four entries
of `allTargets`, in declared order. -/
theorem main_invokes_four_targets (run : String → String → ExecResult)
    (hok : ∀ db sql, (run db sql).returncode = 0) :
    (main run).calls = allTargets ∧ (main run).calls.length = 4 := by
  constructor <;> simp [main, datasetLoop, execute_sql, allTargets, hok]

/-- C4 witness: the amended count statement at the all-success executor. -/
theorem main_invokes_four_targets_witness :
    (main allOk).calls = allTargets ∧ (main allOk).calls.length = 4 :=
  main_invokes_four_targets allOk (fun _ _ => rfl)

/-- C5: for every target database identifier and DDL text, `execute_sql`
reports success exactly when the external process exits with status zero,
and on a nonzero exit it reports failure and surfaces the process's
captured standard-error text in its diagnostic line. -/
theorem execute_sql_contract (run : String → String → ExecResult)
    (db sql : String) :
    ((execute_sql run db sql).1 = true ↔ (run db sql).returncode = 0) ∧
    ((run db sql).returncode ≠ 0 →
      (execute_sql run db sql).1 = false ∧
      (execute_sql run db sql).2
        = ["❌ Error in " ++ db ++ ": " ++ (run db sql).stderr]) := by
  by_cases h : (run db sql).returncode = 0 <;> simp [execute_sql, h]

/-- C5 witness: a process exiting 1 with stderr text `boom` yields failure
and a diagnostic carrying that text. -/
theorem execute_sql_contract_witness :
    (execute_sql (fun _ _ => ⟨1, "", "boom"⟩) "football_data_dev" "sql").1 = false ∧
    (execute_sql (fun _ _ => ⟨1, "", "boom"⟩) "football_data_dev" "sql").2
      = ["❌ Error in football_data_dev: boom"] := by
  have h := (execute_sql_contract (fun _ _ => ⟨1, "", "boom"⟩)
    "football_data_dev" "sql").2 (by decide)
  simpa using h

/-- C6: when every target's invocation succeeds, the printed transcript is
exactly the header lines, the four per-target created confirmations in the
fixed order football/dev, football/prod, housing/dev, housing/prod, and a
final overall-success line, and the exit status is 0. -/
theorem full_success_transcript (run : String → String → ExecResult)
    (hok : ∀ db sql, (run db sql).returncode = 0) :
    (main run).lines
      = [ "🔧 Creating database schemas..."
        , "\n📊 Football Data:"
        , "  Creating schema in football_data_dev..."
        , "  ✅ football_data_dev schema created"
        , "  Creating schema in football_data_prod..."
        , "  ✅ football_data_prod schema created"
        , "\n🏠 Housing Market:"
        , "  Creating schema in portugal_houses_dev..."
        , "  ✅ portugal_houses_dev schema created"
        , "  Creating schema in portugal_houses_prod..."
        , "  ✅ portugal_houses_prod schema created"
        , "\n✅ All schemas created successfully!" ]
    ∧ (main run).exitCode = 0 := by
  constructor <;> simp [main, datasetLoop, execute_sql, hok]

/-- C6 witness: the full-success transcript at the all-success executor. -/
theorem full_success_transcript_witness :
    (main allOk).exitCode = 0 :=
  (full_success_transcript allOk (fun _ _ => rfl)).2

/-- C7: the housing DDL creates exactly the three schemas raw, staging and
marts, grants privileges on each, creates the raw.listings table with
primary key (listing_id, scraped_at), exactly the five named indexes on
raw.listings, the distinct-on latest-snapshot view ordered by most recent
scrape timestamp, the staging.price_history table with the uniqueness
constraint on (listing_id, scraped_at), and comments on the three schemas,
the raw.listings table and the view. -/
theorem housing_schema_content :
    HOUSING_SCHEMA_LINES.filter (fun l => startsWithStr "CREATE SCHEMA" l)
      = [ "CREATE SCHEMA IF NOT EXISTS raw;"
        , "CREATE SCHEMA IF NOT EXISTS staging;"
        , "CREATE SCHEMA IF NOT EXISTS marts;" ] ∧
    HOUSING_SCHEMA_LINES.filter (fun l => startsWithStr "GRANT" l)
      = [ "GRANT ALL PRIVILEGES ON SCHEMA raw TO dataeng;"
        , "GRANT ALL PRIVILEGES ON SCHEMA staging TO dataeng;"
        , "GRANT ALL PRIVILEGES ON SCHEMA marts TO dataeng;" ] ∧
    HOUSING_SCHEMA_LINES.filter (fun l => startsWithStr "CREATE TABLE" l)
      = [ "CREATE TABLE IF NOT EXISTS raw.listings ("
        , "CREATE TABLE IF NOT EXISTS staging.price_history (" ] ∧
    "    CONSTRAINT pk_raw_listings PRIMARY KEY (listing_id, scraped_at)"
      ∈ HOUSING_SCHEMA_LINES ∧
    HOUSING_SCHEMA_LINES.filter
        (fun l => startsWithStr "CREATE INDEX IF NOT EXISTS idx_raw_listings" l)
      = [ "CREATE INDEX IF NOT EXISTS idx_raw_listings_scraped_at ON raw.listings(scraped_at DESC);"
        , "CREATE INDEX IF NOT EXISTS idx_raw_listings_city ON raw.listings(city);"
        , "CREATE INDEX IF NOT EXISTS idx_raw_listings_province ON raw.listings(province);"
        , "CREATE INDEX IF NOT EXISTS idx_raw_listings_price ON raw.listings(price_eur) WHERE price_eur IS NOT NULL;"
        , "CREATE INDEX IF NOT EXISTS idx_raw_listings_url ON raw.listings(url);" ] ∧
    HOUSING_SCHEMA_LINES.filter (fun l => startsWithStr "CREATE OR REPLACE VIEW" l)
      = [ "CREATE OR REPLACE VIEW raw.listings_latest AS" ] ∧
    "SELECT DISTINCT ON (listing_id)" ∈ HOUSING_SCHEMA_LINES ∧
    "ORDER BY listing_id, scraped_at DESC;" ∈ HOUSING_SCHEMA_LINES ∧
    "    CONSTRAINT uq_price_history UNIQUE (listing_id, scraped_at)"
      ∈ HOUSING_SCHEMA_LINES ∧
    HOUSING_SCHEMA_LINES.filter (fun l => startsWithStr "COMMENT ON SCHEMA" l)
      = [ "COMMENT ON SCHEMA raw IS \x27Raw data as ingested from Imovirtual\x27;"
        , "COMMENT ON SCHEMA staging IS \x27Intermediate transformations via dbt\x27;"
        , "COMMENT ON SCHEMA marts IS \x27Final analytics-ready tables via dbt\x27;" ] ∧
    HOUSING_SCHEMA_LINES.filter (fun l => startsWithStr "COMMENT ON TABLE" l)
      = [ "COMMENT ON TABLE raw.listings IS \x27All listing snapshots - one row per listing per scrape date\x27;" ] ∧
    HOUSING_SCHEMA_LINES.filter (fun l => startsWithStr "COMMENT ON VIEW" l)
      = [ "COMMENT ON VIEW raw.listings_latest IS \x27Latest snapshot of each listing\x27;" ] := by
  decide

/-- C8: the football DDL contains exactly one CREATE TABLE statement (the
match-records table `raw_pl_matches`), exactly four CREATE INDEX
statements — on the match date, home team, away team and league division
columns — and one preparatory DROP TABLE statement. -/
theorem football_schema_content :
    FOOTBALL_SCHEMA_LINES.filter (fun l => startsWithStr "CREATE TABLE" l)
      = ["CREATE TABLE raw_pl_matches ("] ∧
    FOOTBALL_SCHEMA_LINES.filter (fun l => startsWithStr "CREATE INDEX" l)
      = [ "CREATE INDEX idx_raw_pl_matches_date ON raw_pl_matches(match_date);"
        , "CREATE INDEX idx_raw_pl_matches_home ON raw_pl_matches(home_team);"
        , "CREATE INDEX idx_raw_pl_matches_away ON raw_pl_matches(away_team);"
        , "CREATE INDEX idx_raw_pl_matches_league ON raw_pl_matches(league_division);"
        ] ∧
    FOOTBALL_SCHEMA_LINES.filter (fun l => startsWithStr "DROP TABLE" l)
      = ["DROP TABLE IF EXISTS raw_pl_matches CASCADE;"] := by
  decide

/-- C9: environment noninterference of the DDL payload — any two executor
invocations of one run whose target databases belong to the same dataset
carry character-for-character the same SQL text; the environment tag only
changes the target database name. -/
theorem payload_env_noninterference (run : String → String → ExecResult)
    (p q : String × String)
    (hp : p ∈ (main run).calls) (hq : q ∈ (main run).calls)
    (hd : datasetOf p.1 = datasetOf q.1) : p.2 = q.2 := by
  have hp4 := mem_calls_mem_allTargets run p hp
  have hq4 := mem_calls_mem_allTargets run q hq
  simp [allTargets] at hp4 hq4
  rcases hp4 with h | h | h | h <;> rcases hq4 with g | g | g | g <;>
    subst h <;> subst g <;> simp_all [datasetOf]

/-- C9 witness: the dev and prod football invocations of an all-success
run carry the same SQL text. -/
theorem payload_env_noninterference_witness :
    (("football_data_dev", FOOTBALL_SCHEMA_SQL) : String × String).2
      = (("football_data_prod", FOOTBALL_SCHEMA_SQL) : String × String).2 :=
  payload_env_noninterference allOk
    ("football_data_dev", FOOTBALL_SCHEMA_SQL)
    ("football_data_prod", FOOTBALL_SCHEMA_SQL)
    (by simp [main, datasetLoop, execute_sql, allOk])
    (by simp [main, datasetLoop, execute_sql, allOk])
    (by simp [datasetOf])

/-- C10: the success/failure decision of `execute_sql` depends only on the
external process's return code — two invocations agreeing on the return
code get the same flag regardless of their output streams; a nonzero exit
is failure even with empty stderr, and a zero exit is success with both
streams discarded (no diagnostic output). -/
theorem execute_sql_ignores_streams
    (r1 r2 : String → String → ExecResult) (db sql : String)
    (h : (r1 db sql).returncode = (r2 db sql).returncode) :
    (execute_sql r1 db sql).1 = (execute_sql r2 db sql).1 ∧
    ((r1 db sql).returncode ≠ 0 → (execute_sql r1 db sql).1 = false) ∧
    ((r1 db sql).returncode = 0 →
      (execute_sql r1 db sql).1 = true ∧ (execute_sql r1 db sql).2 = []) := by
  by_cases h0 : (r1 db sql).returncode = 0 <;>
    simp [execute_sql, h0, ← h]

/-- C10 witness: a nonzero exit with empty stderr is reported as failure,
with the same flag as a nonzero exit with populated streams. -/
theorem execute_sql_ignores_streams_witness :
    (execute_sql (fun _ _ => ⟨1, "", ""⟩) "db" "sql").1
      = (execute_sql (fun _ _ => ⟨1, "out", "err"⟩) "db" "sql").1 ∧
    (execute_sql (fun _ _ => ⟨1, "", ""⟩) "db" "sql").1 = false := by
  have h := execute_sql_ignores_streams (fun _ _ => ⟨1, "", ""⟩)
    (fun _ _ => ⟨1, "out", "err"⟩) "db" "sql" rfl
  exact ⟨h.1, h.2.1 (by decide)⟩

end CreateSchemas
